import Mathlib

/-!
# Verification of the `jargs.hpp` command-line option parser

Shallow embedding of `src/jargs.hpp` (namespace `jargs`).  Tokens are
embedded as `List Char` (a C++ `std::string_view` over the token), the
registry as a `List Flag` in registration order, and a callback invocation
is recorded as an `Event` carrying the index of the flag in the registry
and the option-argument text it receives.  A call to `std::exit(1)` after
printing a diagnostic is embedded as a terminal `ParseError`: no further
token is processed once an error is produced.
-/

namespace Jargs

/-- Embeds `struct Flag` (jargs.hpp lines 84-126).  As in the C++ source,
`short_name = \x7b'\x00'\x7d` marks an absent short form and an empty
`long_name` marks an absent long form; the callback itself is not stored,
since parsing records invocation events instead of running actions. -/
structure Flag where
  short_name : Char
  long_name : String
  description : String
  expects_value : Bool
deriving DecidableEq, Repr

/-- Constructor `Flag(char, string_view, string_view, f)` taking a value
(lines 95-99): both names, `expects_value = true`. -/
def Flag.withArgShortLong (c : Char) (s desc : String) : Flag :=
  { short_name := c, long_name := s, description := desc, expects_value := true }

/-- Constructor `Flag(string_view, string_view, f)` taking a value
(lines 101-104): delegates with a null short name. -/
def Flag.withArgLong (s desc : String) : Flag :=
  Flag.withArgShortLong '\x00' s desc

/-- Constructor `Flag(char, string_view, f)` taking a value
(lines 106-109): delegates with a default-constructed (empty) long name. -/
def Flag.withArgShort (c : Char) (desc : String) : Flag :=
  Flag.withArgShortLong c "" desc

/-- Constructor `Flag(char, string_view, string_view, void f)` without a
value (lines 114-117): both names, `expects_value = false`. -/
def Flag.noArgShortLong (c : Char) (s desc : String) : Flag :=
  { short_name := c, long_name := s, description := desc, expects_value := false }

/-- Constructor `Flag(string_view, string_view, void f)` without a value
(lines 119-121). -/
def Flag.noArgLong (s desc : String) : Flag :=
  Flag.noArgShortLong '\x00' s desc

/-- Constructor `Flag(char, string_view, void f)` without a value
(lines 123-125): default-constructed (empty) long name. -/
def Flag.noArgShort (c : Char) (desc : String) : Flag :=
  Flag.noArgShortLong c "" desc

/-- The flag registered by `Parser::add_help` (lines 156-162). -/
def helpFlag : Flag := Flag.noArgShortLong 'h' "help" "Print help"

/-- A recorded callback invocation: `invoke i v` means the action of the
flag at index `i` of the registry was called with option argument `v`. -/
inductive Event where
  | invoke (idx : Nat) (optarg : List Char)
deriving DecidableEq, Repr

/-- The diagnostic failures of `Parser::parse`; each one prints a message
and calls `std::exit(1)` in the source. -/
inductive ParseError where
  | unknownLong (name : List Char)
  | unknownShort (c : Char)
  | missingArgLong (name : List Char)
  | missingArgShort (c : Char)
deriving DecidableEq, Repr

/-- `std::find_if(flags.begin(), flags.end(), p)` (lines 172-174 and
210-212): first flag satisfying `p`, together with its index. -/
def findFlag? (p : Flag → Bool) : List Flag → Option (Nat × Flag)
  | [] => none
  | f :: fs =>
      if p f then some (0, f)
      else (findFlag? p fs).map (fun q => (q.1 + 1, q.2))

/-- Resolution of a long identifier (lines 172-174): first registered flag
whose `long_name` equals the identifier. -/
def lookupLong (flags : List Flag) (name : List Char) : Option (Nat × Flag) :=
  findFlag? (fun f => f.long_name.data == name) flags

/-- Resolution of a short identifier (lines 210-212): first registered flag
whose `short_name` equals the character. -/
def lookupShort (flags : List Flag) (c : Char) : Option (Nat × Flag) :=
  findFlag? (fun f => f.short_name == c) flags

/-- Index of the first registered flag matching short name `c` (0 when
unregistered; only used under a hypothesis that the lookup succeeds). -/
def shortIdx (flags : List Flag) (c : Char) : Nat :=
  ((lookupShort flags c).map (fun q => q.1)).getD 0

/-- Result of the inner character loop over one short-option token:
the events fired, an error if the loop called `exit`, and whether the
loop consumed the following token (`argv[++i]`, line 230). -/
structure ShortResult where
  events : List Event
  error : Option ParseError
  consumedNext : Bool
deriving DecidableEq, Repr

/-- The inner loop of the short-option branch (jargs.hpp lines 207-237):
iterates over the characters after the leading dash.  `next?` is the
following token of the argument list, if any.  For a value-expecting flag
whose character is not last, the value is the remainder of the token and
the loop breaks (lines 221-223); for one whose character is last, the next
token is consumed whole (lines 226-231); a flag without a value fires with
an empty argument and the loop continues (line 235). -/
def shortChars (flags : List Flag) (next? : Option (List Char)) :
    List Char → ShortResult
  | [] => { events := [], error := none, consumedNext := false }
  | c :: cs =>
      match lookupShort flags c with
      | none => { events := [], error := some (.unknownShort c), consumedNext := false }
      | some (idx, f) =>
          if f.expects_value then
            if cs ≠ [] then
              { events := [Event.invoke idx cs], error := none, consumedNext := false }
            else
              match next? with
              | none =>
                  { events := [], error := some (.missingArgShort c), consumedNext := false }
              | some v =>
                  { events := [Event.invoke idx v], error := none, consumedNext := true }
          else
            let r := shortChars flags next? cs
            { events := Event.invoke idx [] :: r.events, error := r.error,
              consumedNext := r.consumedNext }

/-- Outcome of processing one token of the loop body (one iteration of
the `for` loop at jargs.hpp line 166): either a diagnostic was reached
(the events fired before it, then `std::exit(1)`), or the iteration ended
normally with the events fired, `consumedNext` recording whether the
iteration consumed the following token via `argv[++i]`. -/
inductive StepOut where
  | err (events : List Event) (e : ParseError)
  | ok (events : List Event) (consumedNext : Bool)
deriving DecidableEq, Repr

/-- The long-option branch of the loop body (jargs.hpp lines 169-203).
The identifier is `arg.substr(2, arg.find(eq)-2)` (line 170): everything
between the two dashes and the first `=` (or the end of the token).
`next?` is the following token of the argument list, if any. -/
def longStep (flags : List Flag) (tok : List Char) (next? : Option (List Char)) :
    StepOut :=
  let name := (tok.takeWhile (fun c => c != '=')).drop 2
  match lookupLong flags name with
  | none => .err [] (.unknownLong name)
  | some (idx, f) =>
      if f.expects_value then
        if '=' ∈ tok then
          let optarg := (tok.dropWhile (fun c => c != '=')).drop 1
          if optarg = [] then .err [] (.missingArgLong name)
          else .ok [Event.invoke idx optarg] false
        else
          match next? with
          | none => .err [] (.missingArgLong name)
          | some v => .ok [Event.invoke idx v] true
      else .ok [Event.invoke idx []] false

/-- The short-option branch of the loop body (jargs.hpp lines 204-237):
runs the character loop over everything after the leading dash. -/
def shortStep (flags : List Flag) (tok : List Char) (next? : Option (List Char)) :
    StepOut :=
  let s := shortChars flags next? (tok.drop 1)
  match s.error with
  | some e => .err s.events e
  | none => .ok s.events s.consumedNext

/-- One iteration of the token loop (jargs.hpp lines 166-238): a token of
length at least 3 starting with two dashes is a long option token (line
169); otherwise a token of length at least 2 starting with a dash is a
short option token (line 204); any other token is skipped. -/
def tokStep (flags : List Flag) (tok : List Char) (next? : Option (List Char)) :
    StepOut :=
  if 3 ≤ tok.length ∧ tok.take 2 = ['-', '-'] then longStep flags tok next?
  else if 2 ≤ tok.length ∧ tok.take 1 = ['-'] then shortStep flags tok next?
  else .ok [] false

/-- The token loop of `Parser::parse` (jargs.hpp lines 166-239), over the
tokens after the program name.  Diagnostics terminate the whole parse
(`std::exit`), so an error ends the loop with the events fired so far;
otherwise the loop continues after the current token, skipping the next
token when the iteration consumed it. -/
def parseToks (flags : List Flag) : List (List Char) → List Event × Option ParseError
  | [] => ([], none)
  | tok :: rest =>
      match tokStep flags tok rest.head? with
      | .err es e => (es, some e)
      | .ok es true =>
          match rest with
          | [] => (es, none)
          | _ :: rest' =>
              let r := parseToks flags rest'
              (es ++ r.1, r.2)
      | .ok es false =>
          let r := parseToks flags rest
          (es ++ r.1, r.2)

/-- The diagnostic line printed to `std::cerr` before `std::exit(1)`
(jargs.hpp lines 177, 186, 194, 215, 227), prefixed with `argv[0]`. -/
def errorMessage (prog : String) : ParseError → String
  | .unknownLong name =>
      prog ++ ": unknown option: \x27--" ++ String.mk name ++ "\x27"
  | .unknownShort c =>
      prog ++ ": unknown option: \x27-" ++ String.mk [c] ++ "\x27"
  | .missingArgLong name =>
      prog ++ ": option \x27--" ++ String.mk name ++ "\x27 requires an argument"
  | .missingArgShort c =>
      prog ++ ": option \x27-" ++ String.mk [c] ++ "\x27 requires an argument"

/-- The observable effect of an error site: the printed line and the
process exit status (`std::exit(1)` at every diagnostic site). -/
structure Diagnostic where
  message : String
  exitCode : Nat
deriving DecidableEq, Repr

/-- Every diagnostic site prints `errorMessage` and exits with status 1. -/
def diagnose (prog : String) (e : ParseError) : Diagnostic :=
  { message := errorMessage prog e, exitCode := 1 }

/-- Overall outcome of `Parser::parse`: the callback invocations, and the
diagnostic (with exit status) when the parse terminated the process. -/
structure ParseOutcome where
  events : List Event
  diag : Option Diagnostic
deriving DecidableEq, Repr

/-- `Parser::parse(argc, argv)` (lines 164-240): `argv.head` is the
program name, used only as the diagnostic prefix; tokens from index 1 on
are parsed. -/
def parse (flags : List Flag) (argv : List String) : ParseOutcome :=
  let prog := argv.headD ""
  let r := parseToks flags ((argv.drop 1).map String.data)
  { events := r.1, diag := r.2.map (diagnose prog) }

/-- `lhs_max` (jargs.hpp line 244). -/
def lhsMax : Nat := 32

/-- A run of `n` spaces, `std::string(n, ' ')`. -/
def spaces (n : Nat) : String := String.mk (List.replicate n ' ')

/-- The left-hand column built for one flag in `Parser::print_help_page`
(jargs.hpp lines 248-258): two-space indent, `-c` when the short name is
non-null, a comma-space separator when both names are present, `--name`
when the long name is non-empty, and a trailing ` ARG` for a
value-expecting flag. -/
def lhsOf (f : Flag) : String :=
  "  "
    ++ (if f.short_name ≠ '\x00' then "-" ++ String.mk [f.short_name] else "")
    ++ (if f.short_name ≠ '\x00' ∧ f.long_name ≠ "" then ", " else "")
    ++ (if f.long_name.length ≠ 0 then "--" ++ f.long_name else "")
    ++ (if f.expects_value then " ARG" else "")

/-- One line (or two) of the help page for a flag (jargs.hpp lines
260-264): pad the left column to `lhsMax` when it fits, else put it on its
own line with the description indented under the threshold. -/
def helpLine (f : Flag) : String :=
  let lhs := lhsOf f
  if lhs.length ≤ lhsMax then
    lhs ++ spaces (lhsMax - lhs.length) ++ " " ++ f.description ++ "\n"
  else
    lhs ++ "\n" ++ spaces lhsMax ++ " " ++ f.description ++ "\n"

/-- `Parser::print_help_page` (jargs.hpp lines 242-266): the usage line
followed by one entry per registered flag, in registration order. -/
def printHelpPage (usage : String) (flags : List Flag) : String :=
  "Usage: " ++ usage ++ "\n" ++ String.join (flags.map helpLine)

/-- The registry built by the usage example in the jargs.hpp header
comment (lines 33-46) and by the first example program. -/
def exampleFlags : List Flag :=
  [Flag.noArgShortLong 'f' "flag" "Set flag",
   Flag.withArgLong "filename" "Specify filename",
   Flag.withArgShort 'p' "Print something",
   helpFlag]

/-- Three no-value short flags, as in the combined `-abc` scenario. -/
def abcFlags : List Flag :=
  [Flag.noArgShort 'a' "A option",
   Flag.noArgShort 'b' "B option",
   Flag.noArgShort 'c' "C option"]

/-- A flag whose help left-hand column exceeds the `lhsMax` threshold. -/
def wideFlag : Flag :=
  Flag.withArgLong "a-very-long-option-name-indeed" "Wide option"

end Jargs

namespace Jargs

theorem takeWhile_eq_of_not_mem (name : List Char) (h : '=' ∉ name) :
    name.takeWhile (fun c => c != '=') = name := by
  induction name with
  | nil => rfl
  | cons a l ih =>
      have ha : a ≠ '=' := by rintro rfl; exact h (List.mem_cons_self _ _)
      have hl : '=' ∉ l := fun hm => h (List.mem_cons_of_mem _ hm)
      simp [List.takeWhile_cons, ha, ih hl]

theorem takeWhile_append_sep (name v : List Char) (h : '=' ∉ name) :
    (name ++ '=' :: v).takeWhile (fun c => c != '=') = name := by
  induction name with
  | nil => simp [List.takeWhile_cons]
  | cons a l ih =>
      have ha : a ≠ '=' := by rintro rfl; exact h (List.mem_cons_self _ _)
      have hl : '=' ∉ l := fun hm => h (List.mem_cons_of_mem _ hm)
      simp [List.takeWhile_cons, ha, ih hl]

theorem dropWhile_append_sep (name v : List Char) (h : '=' ∉ name) :
    (name ++ '=' :: v).dropWhile (fun c => c != '=') = '=' :: v := by
  induction name with
  | nil => simp [List.dropWhile_cons]
  | cons a l ih =>
      have ha : a ≠ '=' := by rintro rfl; exact h (List.mem_cons_self _ _)
      have hl : '=' ∉ l := fun hm => h (List.mem_cons_of_mem _ hm)
      simp [List.dropWhile_cons, ha, ih hl]

theorem parseToks_cons_err (flags : List Flag) (tok : List Char)
    (rest : List (List Char)) (es : List Event) (e : ParseError)
    (h : tokStep flags tok rest.head? = .err es e) :
    parseToks flags (tok :: rest) = (es, some e) := by
  simp [parseToks, h]

theorem parseToks_cons_ok_false (flags : List Flag) (tok : List Char)
    (rest : List (List Char)) (es : List Event)
    (h : tokStep flags tok rest.head? = .ok es false) :
    parseToks flags (tok :: rest) =
      (es ++ (parseToks flags rest).1, (parseToks flags rest).2) := by
  simp [parseToks, h]

theorem parseToks_cons_ok_true (flags : List Flag) (tok v : List Char)
    (ts : List (List Char)) (es : List Event)
    (h : tokStep flags tok (some v) = .ok es true) :
    parseToks flags (tok :: v :: ts) =
      (es ++ (parseToks flags ts).1, (parseToks flags ts).2) := by
  simp [parseToks, h]

theorem longTok_guard (suffix : List Char) (hne : suffix ≠ []) :
    3 ≤ ('-' :: '-' :: suffix).length ∧
      ('-' :: '-' :: suffix).take 2 = ['-', '-'] := by
  refine ⟨?_, rfl⟩
  have := List.length_pos.mpr hne
  simp
  omega

theorem tokStep_long (flags : List Flag) (suffix : List Char)
    (next? : Option (List Char)) (hne : suffix ≠ []) :
    tokStep flags ('-' :: '-' :: suffix) next? =
      longStep flags ('-' :: '-' :: suffix) next? := by
  simp [tokStep, hne]

theorem longStep_attached (flags : List Flag) (name v : List Char)
    (next? : Option (List Char)) (idx : Nat) (f : Flag)
    (hnm : '=' ∉ name) (hL : lookupLong flags name = some (idx, f))
    (hf : f.expects_value = true) (hv : v ≠ []) :
    longStep flags ('-' :: '-' :: (name ++ '=' :: v)) next? =
      .ok [Event.invoke idx v] false := by
  simp [longStep, takeWhile_append_sep name v hnm, dropWhile_append_sep name v hnm,
    hL, hf, hv]

theorem longStep_empty_suffix (flags : List Flag) (name : List Char)
    (next? : Option (List Char)) (idx : Nat) (f : Flag)
    (hnm : '=' ∉ name) (hL : lookupLong flags name = some (idx, f))
    (hf : f.expects_value = true) :
    longStep flags ('-' :: '-' :: (name ++ ['='])) next? =
      .err [] (.missingArgLong name) := by
  simp [longStep, takeWhile_append_sep name [] hnm, dropWhile_append_sep name [] hnm,
    hL, hf]

theorem longStep_detached (flags : List Flag) (name v : List Char)
    (idx : Nat) (f : Flag)
    (hnm : '=' ∉ name) (hL : lookupLong flags name = some (idx, f))
    (hf : f.expects_value = true) :
    longStep flags ('-' :: '-' :: name) (some v) =
      .ok [Event.invoke idx v] true := by
  simp [longStep, takeWhile_eq_of_not_mem name hnm, hnm, hL, hf]

theorem longStep_missing (flags : List Flag) (name : List Char)
    (idx : Nat) (f : Flag)
    (hnm : '=' ∉ name) (hL : lookupLong flags name = some (idx, f))
    (hf : f.expects_value = true) :
    longStep flags ('-' :: '-' :: name) none =
      .err [] (.missingArgLong name) := by
  simp [longStep, takeWhile_eq_of_not_mem name hnm, hnm, hL, hf]

theorem longStep_unknown (flags : List Flag) (name : List Char)
    (next? : Option (List Char))
    (hnm : '=' ∉ name) (hL : lookupLong flags name = none) :
    longStep flags ('-' :: '-' :: name) next? = .err [] (.unknownLong name) := by
  simp [longStep, takeWhile_eq_of_not_mem name hnm, hnm, hL]

theorem tokStep_short_single (flags : List Flag) (c : Char)
    (next? : Option (List Char)) :
    tokStep flags ['-', c] next? = shortStep flags ['-', c] next? := by
  simp [tokStep]

theorem tokStep_short_multi (flags : List Flag) (x : Char) (v : List Char)
    (next? : Option (List Char)) (hx : x ≠ '-') :
    tokStep flags ('-' :: x :: v) next? = shortStep flags ('-' :: x :: v) next? := by
  simp [tokStep, hx]

theorem shortStep_unknown (flags : List Flag) (c : Char)
    (next? : Option (List Char)) (h : lookupShort flags c = none) :
    shortStep flags ['-', c] next? = .err [] (.unknownShort c) := by
  simp [shortStep, shortChars, h]

theorem shortStep_attached (flags : List Flag) (x : Char) (v : List Char)
    (next? : Option (List Char)) (i : Nat) (f : Flag)
    (h : lookupShort flags x = some (i, f)) (hf : f.expects_value = true)
    (hv : v ≠ []) :
    shortStep flags ('-' :: x :: v) next? = .ok [Event.invoke i v] false := by
  simp [shortStep, shortChars, h, hf, hv]

theorem shortStep_detached (flags : List Flag) (x : Char) (v : List Char)
    (i : Nat) (f : Flag)
    (h : lookupShort flags x = some (i, f)) (hf : f.expects_value = true) :
    shortStep flags ['-', x] (some v) = .ok [Event.invoke i v] true := by
  simp [shortStep, shortChars, h, hf]

theorem shortStep_missing (flags : List Flag) (x : Char) (i : Nat) (f : Flag)
    (h : lookupShort flags x = some (i, f)) (hf : f.expects_value = true) :
    shortStep flags ['-', x] none = .err [] (.missingArgShort x) := by
  simp [shortStep, shortChars, h, hf]

theorem shortChars_novalue (flags : List Flag) (next? : Option (List Char))
    (cs : List Char)
    (h : ∀ c ∈ cs, ∃ q, lookupShort flags c = some q ∧ q.2.expects_value = false) :
    shortChars flags next? cs =
      { events := cs.map (fun c => Event.invoke (shortIdx flags c) []),
        error := none, consumedNext := false } := by
  induction cs with
  | nil => rfl
  | cons c l ih =>
      obtain ⟨⟨i, f⟩, hq, hv⟩ := h c (List.mem_cons_self _ _)
      have hv' : f.expects_value = false := hv
      have hidx : shortIdx flags c = i := by simp [shortIdx, hq]
      have ih2 := ih (fun b hb => h b (List.mem_cons_of_mem _ hb))
      simp [shortChars, hq, hv', ih2, hidx]

theorem parseToks_combined (flags : List Flag) (cs : List Char)
    (ts : List (List Char))
    (hd : cs.head? ≠ some '-')
    (h : ∀ c ∈ cs, ∃ q, lookupShort flags c = some q ∧ q.2.expects_value = false) :
    parseToks flags (('-' :: cs) :: ts) =
      (cs.map (fun c => Event.invoke (shortIdx flags c) []) ++ (parseToks flags ts).1,
        (parseToks flags ts).2) := by
  cases cs with
  | nil => simp [parseToks, tokStep]
  | cons c l =>
      have hsc := shortChars_novalue flags ts.head? (c :: l) h
      have hss : shortStep flags ('-' :: c :: l) ts.head? =
          .ok ((c :: l).map (fun b => Event.invoke (shortIdx flags b) [])) false := by
        simp [shortStep, hsc]
      have hts : tokStep flags ('-' :: c :: l) ts.head? =
          .ok ((c :: l).map (fun b => Event.invoke (shortIdx flags b) [])) false := by
        cases l with
        | nil => rw [tokStep_short_single, hss]
        | cons b m =>
            have hx : c ≠ '-' := by
              intro hh
              exact hd (by simp [hh])
            rw [tokStep_short_multi flags c (b :: m) ts.head? hx, hss]
      exact parseToks_cons_ok_false flags _ ts _ hts

theorem findFlag_eq_some (p : Flag → Bool) (flags : List Flag) (i : Nat) (f : Flag)
    (h : findFlag? p flags = some (i, f)) : p f = true ∧ flags[i]? = some f := by
  induction flags generalizing i with
  | nil => simp [findFlag?] at h
  | cons g fs ih =>
      by_cases hg : p g
      · simp [findFlag?, hg] at h
        obtain ⟨rfl, rfl⟩ := h
        exact ⟨hg, by simp⟩
      · simp [findFlag?, hg] at h
        obtain ⟨a, hq, rfl⟩ := h
        obtain ⟨hp, hget⟩ := ih a hq
        exact ⟨hp, by simpa using hget⟩

theorem lookupShort_idx_inj (flags : List Flag) (c c' : Char) (i i' : Nat)
    (f f' : Flag)
    (h : lookupShort flags c = some (i, f)) (h' : lookupShort flags c' = some (i', f'))
    (hii : i = i') : c = c' := by
  obtain ⟨hp, hg⟩ := findFlag_eq_some _ _ _ _ h
  obtain ⟨hp', hg'⟩ := findFlag_eq_some _ _ _ _ h'
  subst hii
  rw [hg] at hg'
  injection hg' with hff
  subst hff
  have e1 : f.short_name = c := by simpa using hp
  have e2 : f.short_name = c' := by simpa using hp'
  rw [← e1, e2]

/-- C1: For every registered option that expects a value, the attached and
detached argument forms invoke the callback with an identical value:
parsing the single token `--name=value` and parsing the two tokens
`--name value` both fire the long option callback exactly once with the
value, and parsing `-xVALUE` and the two tokens `-x VALUE` both fire the
short option callback exactly once with the value. -/
theorem attached_detached_agree (flags : List Flag) (name value : List Char)
    (x : Char) (i j : Nat) (f g : Flag)
    (hL : lookupLong flags name = some (i, f)) (hf : f.expects_value = true)
    (hname : name ≠ []) (hnm : '=' ∉ name) (hv : value ≠ [])
    (hS : lookupShort flags x = some (j, g)) (hg : g.expects_value = true)
    (hx : x ≠ '-') :
    parseToks flags [('-' :: '-' :: (name ++ '=' :: value))] =
      ([Event.invoke i value], none)
    ∧ parseToks flags [('-' :: '-' :: name), value] = ([Event.invoke i value], none)
    ∧ parseToks flags [('-' :: x :: value)] = ([Event.invoke j value], none)
    ∧ parseToks flags [['-', x], value] = ([Event.invoke j value], none) := by
  have h1 : tokStep flags ('-' :: '-' :: (name ++ '=' :: value)) none =
      .ok [Event.invoke i value] false := by
    rw [tokStep_long flags (name ++ '=' :: value) none (by simp)]
    exact longStep_attached flags name value none i f hnm hL hf hv
  have h2 : tokStep flags ('-' :: '-' :: name) (some value) =
      .ok [Event.invoke i value] true := by
    rw [tokStep_long flags name (some value) hname]
    exact longStep_detached flags name value i f hnm hL hf
  have h3 : tokStep flags ('-' :: x :: value) none =
      .ok [Event.invoke j value] false := by
    rw [tokStep_short_multi flags x value none hx]
    exact shortStep_attached flags x value none j g hS hg hv
  have h4 : tokStep flags ['-', x] (some value) =
      .ok [Event.invoke j value] true := by
    rw [tokStep_short_single]
    exact shortStep_detached flags x value j g hS hg
  refine ⟨?_, ?_, ?_, ?_⟩
  · simpa [parseToks] using parseToks_cons_ok_false flags _ [] _ h1
  · simpa [parseToks] using parseToks_cons_ok_true flags _ value [] _ h2
  · simpa [parseToks] using parseToks_cons_ok_false flags _ [] _ h3
  · simpa [parseToks] using parseToks_cons_ok_true flags _ value [] _ h4

/-- Witness for C1, on the registry of the usage example: the flag
`--filename` (index 1) and the short flag `-p` (index 2). -/
theorem attached_detached_agree_witness :
    parseToks exampleFlags
        [('-' :: '-' :: (['f', 'i', 'l', 'e', 'n', 'a', 'm', 'e'] ++ '=' :: ['v']))] =
      ([Event.invoke 1 ['v']], none)
    ∧ parseToks exampleFlags
        [('-' :: '-' :: ['f', 'i', 'l', 'e', 'n', 'a', 'm', 'e']), ['v']] =
      ([Event.invoke 1 ['v']], none)
    ∧ parseToks exampleFlags [('-' :: 'p' :: ['v'])] = ([Event.invoke 2 ['v']], none)
    ∧ parseToks exampleFlags [['-', 'p'], ['v']] = ([Event.invoke 2 ['v']], none) :=
  attached_detached_agree exampleFlags ['f', 'i', 'l', 'e', 'n', 'a', 'm', 'e'] ['v']
    'p' 1 2 (Flag.withArgLong "filename" "Specify filename")
    (Flag.withArgShort 'p' "Print something")
    (by decide) (by decide) (by decide) (by decide) (by decide) (by decide)
    (by decide) (by decide)

/-- C2: Parsing one short token made of registered no-value flags fires
each callback exactly once, in left-to-right order of the characters,
each with an empty argument. -/
theorem combined_flags_fire_once (flags : List Flag) (cs : List Char)
    (hd : cs.head? ≠ some '-')
    (h : ∀ c ∈ cs, ∃ q, lookupShort flags c = some q ∧ q.2.expects_value = false) :
    parseToks flags [('-' :: cs)] =
      (cs.map (fun c => Event.invoke (shortIdx flags c) []), none)
    ∧ (cs.Nodup → ∀ c ∈ cs,
        (parseToks flags [('-' :: cs)]).1.count (Event.invoke (shortIdx flags c) [])
          = 1) := by
  have hmain : parseToks flags [('-' :: cs)] =
      (cs.map (fun c => Event.invoke (shortIdx flags c) []), none) := by
    simpa [parseToks] using parseToks_combined flags cs [] hd h
  refine ⟨hmain, fun hnd c hc => ?_⟩
  rw [hmain]
  have hiff : ∀ b ∈ cs,
      ((Event.invoke (shortIdx flags b) [] == Event.invoke (shortIdx flags c) [])
        = true) ↔ ((b == c) = true) := by
    intro b hb
    rw [beq_iff_eq, beq_iff_eq]
    constructor
    · intro he
      obtain ⟨⟨ib, fb⟩, hqb, _⟩ := h b hb
      obtain ⟨⟨ic, fc⟩, hqc, _⟩ := h c hc
      have hib : shortIdx flags b = ib := by simp [shortIdx, hqb]
      have hic : shortIdx flags c = ic := by simp [shortIdx, hqc]
      have hids : ib = ic := by
        injection he with e1 e2
        rw [← hib, ← hic, e1]
      exact lookupShort_idx_inj flags b c ib ic fb fc hqb hqc hids
    · intro he
      rw [he]
  rw [List.count_eq_countP, List.countP_map]
  have hcp := List.countP_congr (l := cs)
    (p := (fun x => x == Event.invoke (shortIdx flags c) []) ∘
      (fun b => Event.invoke (shortIdx flags b) []))
    (q := fun b => b == c) hiff
  rw [hcp, ← List.count_eq_countP]
  exact List.count_eq_one_of_mem hnd hc

/-- Witness for C2: parsing `-abc` against three registered no-value
flags fires each of them exactly once, in order, with empty arguments. -/
theorem combined_flags_fire_once_witness :
    parseToks abcFlags [('-' :: ['a', 'b', 'c'])] =
      (['a', 'b', 'c'].map (fun c => Event.invoke (shortIdx abcFlags c) []), none)
    ∧ (['a', 'b', 'c'].Nodup → ∀ c ∈ ['a', 'b', 'c'],
        (parseToks abcFlags [('-' :: ['a', 'b', 'c'])]).1.count
          (Event.invoke (shortIdx abcFlags c) []) = 1) :=
  combined_flags_fire_once abcFlags ['a', 'b', 'c'] (by decide) (by decide)

/-- C3: A value-expecting option in detached form consumes the next token
whole and literally, whatever it looks like (the token is arbitrary, so in
particular it may look like `--foo` or `-x`), and the consumed token is
never itself processed as an option; when the option token is the last
argument, the parse fails with MissingArgument immediately, firing no
callback. -/
theorem detached_consumes_next_token (flags : List Flag) (name v : List Char)
    (x : Char) (i j : Nat) (f g : Flag) (ts : List (List Char))
    (hL : lookupLong flags name = some (i, f)) (hf : f.expects_value = true)
    (hname : name ≠ []) (hnm : '=' ∉ name)
    (hS : lookupShort flags x = some (j, g)) (hg : g.expects_value = true) :
    parseToks flags (('-' :: '-' :: name) :: v :: ts) =
      (Event.invoke i v :: (parseToks flags ts).1, (parseToks flags ts).2)
    ∧ parseToks flags [('-' :: '-' :: name)] =
      ([], some (ParseError.missingArgLong name))
    ∧ parseToks flags (['-', x] :: v :: ts) =
      (Event.invoke j v :: (parseToks flags ts).1, (parseToks flags ts).2)
    ∧ parseToks flags [['-', x]] = ([], some (ParseError.missingArgShort x)) := by
  have h1 : tokStep flags ('-' :: '-' :: name) (some v) =
      .ok [Event.invoke i v] true := by
    rw [tokStep_long flags name (some v) hname]
    exact longStep_detached flags name v i f hnm hL hf
  have h2 : tokStep flags ('-' :: '-' :: name) none =
      .err [] (.missingArgLong name) := by
    rw [tokStep_long flags name none hname]
    exact longStep_missing flags name i f hnm hL hf
  have h3 : tokStep flags ['-', x] (some v) = .ok [Event.invoke j v] true := by
    rw [tokStep_short_single]
    exact shortStep_detached flags x v j g hS hg
  have h4 : tokStep flags ['-', x] none = .err [] (.missingArgShort x) := by
    rw [tokStep_short_single]
    exact shortStep_missing flags x j g hS hg
  refine ⟨?_, ?_, ?_, ?_⟩
  · simpa using parseToks_cons_ok_true flags _ v ts _ h1
  · exact parseToks_cons_err flags _ [] _ _ h2
  · simpa using parseToks_cons_ok_true flags _ v ts _ h3
  · exact parseToks_cons_err flags _ [] _ _ h4

/-- Witness for C3, on the usage example registry: `--filename` and `-p`
consume a following token that itself looks like the option `--flag`, and
fail with MissingArgument when last. -/
theorem detached_consumes_next_token_witness :
    parseToks exampleFlags
        (('-' :: '-' :: ['f', 'i', 'l', 'e', 'n', 'a', 'm', 'e']) ::
          ['-', '-', 'f', 'l', 'a', 'g'] :: []) =
      (Event.invoke 1 ['-', '-', 'f', 'l', 'a', 'g'] :: (parseToks exampleFlags []).1,
        (parseToks exampleFlags []).2)
    ∧ parseToks exampleFlags [('-' :: '-' :: ['f', 'i', 'l', 'e', 'n', 'a', 'm', 'e'])] =
      ([], some (ParseError.missingArgLong ['f', 'i', 'l', 'e', 'n', 'a', 'm', 'e']))
    ∧ parseToks exampleFlags (['-', 'p'] :: ['-', '-', 'f', 'l', 'a', 'g'] :: []) =
      (Event.invoke 2 ['-', '-', 'f', 'l', 'a', 'g'] :: (parseToks exampleFlags []).1,
        (parseToks exampleFlags []).2)
    ∧ parseToks exampleFlags [['-', 'p']] = ([], some (ParseError.missingArgShort 'p')) :=
  detached_consumes_next_token exampleFlags ['f', 'i', 'l', 'e', 'n', 'a', 'm', 'e']
    ['-', '-', 'f', 'l', 'a', 'g'] 'p' 1 2
    (Flag.withArgLong "filename" "Specify filename")
    (Flag.withArgShort 'p' "Print something") []
    (by decide) (by decide) (by decide) (by decide) (by decide) (by decide)

/-- C4: For a value-expecting long option, the token `--name=` (bare `=`,
empty suffix) always fails with MissingArgument and terminates (no later
token is processed and the callback is never invoked, not even with an
empty string); with a non-empty suffix the callback receives everything
after the first `=`. -/
theorem long_eq_empty_value_rejected (flags : List Flag) (name v : List Char)
    (i : Nat) (f : Flag) (ts : List (List Char))
    (hL : lookupLong flags name = some (i, f)) (hf : f.expects_value = true)
    (hnm : '=' ∉ name) :
    parseToks flags (('-' :: '-' :: (name ++ ['='])) :: ts) =
      ([], some (ParseError.missingArgLong name))
    ∧ (v ≠ [] → parseToks flags (('-' :: '-' :: (name ++ '=' :: v)) :: ts) =
        (Event.invoke i v :: (parseToks flags ts).1, (parseToks flags ts).2)) := by
  constructor
  · have h1 : tokStep flags ('-' :: '-' :: (name ++ ['='])) ts.head? =
        .err [] (.missingArgLong name) := by
      rw [tokStep_long flags (name ++ ['=']) ts.head? (by simp)]
      exact longStep_empty_suffix flags name ts.head? i f hnm hL hf
    exact parseToks_cons_err flags _ ts _ _ h1
  · intro hv
    have h2 : tokStep flags ('-' :: '-' :: (name ++ '=' :: v)) ts.head? =
        .ok [Event.invoke i v] false := by
      rw [tokStep_long flags (name ++ '=' :: v) ts.head? (by simp)]
      exact longStep_attached flags name v ts.head? i f hnm hL hf hv
    simpa using parseToks_cons_ok_false flags _ ts _ h2

/-- Witness for C4: `--filename=` fails with MissingArgument even with a
later token present, and `--filename=a` passes `a`. -/
theorem long_eq_empty_value_rejected_witness :
    (parseToks exampleFlags
        (('-' :: '-' :: (['f', 'i', 'l', 'e', 'n', 'a', 'm', 'e'] ++ ['='])) ::
          [['x']]) =
      ([], some (ParseError.missingArgLong ['f', 'i', 'l', 'e', 'n', 'a', 'm', 'e'])))
    ∧ (['a'] ≠ ([] : List Char) → parseToks exampleFlags
        (('-' :: '-' :: (['f', 'i', 'l', 'e', 'n', 'a', 'm', 'e'] ++ '=' :: ['a'])) ::
          [['x']]) =
      (Event.invoke 1 ['a'] :: (parseToks exampleFlags [['x']]).1,
        (parseToks exampleFlags [['x']]).2)) :=
  long_eq_empty_value_rejected exampleFlags ['f', 'i', 'l', 'e', 'n', 'a', 'm', 'e']
    ['a'] 1 (Flag.withArgLong "filename" "Specify filename") [['x']]
    (by decide) (by decide) (by decide)


theorem spaces_length (n : Nat) : (spaces n).length = n := by
  simp [spaces, String.length]

/-- C5: An unregistered long or short identifier always ends the parse
with UnknownOption before any callback for it can fire, no matter what
tokens follow; every diagnostic line is prefixed with the program name
(`argv[0]`) and has the exact documented form, and every diagnostic site
exits with status 1. -/
theorem unknown_option_diagnostics (flags : List Flag) (name : List Char) (c : Char)
    (prog : String) (ts : List (List Char)) (more : List String)
    (hname : name ≠ []) (hnm : '=' ∉ name)
    (hL : lookupLong flags name = none) (hS : lookupShort flags c = none) :
    parseToks flags (('-' :: '-' :: name) :: ts) =
      ([], some (ParseError.unknownLong name))
    ∧ parseToks flags (['-', c] :: ts) = ([], some (ParseError.unknownShort c))
    ∧ parse flags (prog :: String.mk ('-' :: '-' :: name) :: more) =
        ⟨[], some ⟨prog ++ ": unknown option: \x27--" ++ String.mk name ++ "\x27", 1⟩⟩
    ∧ errorMessage prog (ParseError.unknownLong name) =
        prog ++ ": unknown option: \x27--" ++ String.mk name ++ "\x27"
    ∧ errorMessage prog (ParseError.unknownShort c) =
        prog ++ ": unknown option: \x27-" ++ String.mk [c] ++ "\x27"
    ∧ errorMessage prog (ParseError.missingArgLong name) =
        prog ++ ": option \x27--" ++ String.mk name ++ "\x27 requires an argument"
    ∧ errorMessage prog (ParseError.missingArgShort c) =
        prog ++ ": option \x27-" ++ String.mk [c] ++ "\x27 requires an argument"
    ∧ (∀ e, (diagnose prog e).exitCode = 1) := by
  have p1 : ∀ ts' : List (List Char), parseToks flags (('-' :: '-' :: name) :: ts') =
      ([], some (ParseError.unknownLong name)) := by
    intro ts'
    refine parseToks_cons_err flags _ ts' _ _ ?_
    rw [tokStep_long flags name ts'.head? hname]
    exact longStep_unknown flags name ts'.head? hnm hL
  have p2 : parseToks flags (['-', c] :: ts) =
      ([], some (ParseError.unknownShort c)) := by
    refine parseToks_cons_err flags _ ts _ _ ?_
    rw [tokStep_short_single]
    exact shortStep_unknown flags c ts.head? hS
  have hdata : (String.mk ('-' :: '-' :: name)).data = '-' :: '-' :: name := rfl
  refine ⟨p1 ts, p2, ?_, rfl, rfl, rfl, rfl, fun e => rfl⟩
  simp [parse, diagnose, errorMessage, hdata, p1 (more.map String.data)]

/-- Witness for C5: the unregistered identifiers `--zz` and `-z` on the
usage example registry. -/
theorem unknown_option_diagnostics_witness :
    parseToks exampleFlags (('-' :: '-' :: ['z', 'z']) :: [['x']]) =
      ([], some (ParseError.unknownLong ['z', 'z']))
    ∧ parseToks exampleFlags (['-', 'z'] :: [['x']]) =
      ([], some (ParseError.unknownShort 'z'))
    ∧ parse exampleFlags ("prog" :: String.mk ('-' :: '-' :: ['z', 'z']) :: []) =
        ⟨[], some ⟨"prog" ++ ": unknown option: \x27--" ++ String.mk ['z', 'z'] ++ "\x27", 1⟩⟩
    ∧ errorMessage "prog" (ParseError.unknownLong ['z', 'z']) =
        "prog" ++ ": unknown option: \x27--" ++ String.mk ['z', 'z'] ++ "\x27"
    ∧ errorMessage "prog" (ParseError.unknownShort 'z') =
        "prog" ++ ": unknown option: \x27-" ++ String.mk ['z'] ++ "\x27"
    ∧ errorMessage "prog" (ParseError.missingArgLong ['z', 'z']) =
        "prog" ++ ": option \x27--" ++ String.mk ['z', 'z'] ++ "\x27 requires an argument"
    ∧ errorMessage "prog" (ParseError.missingArgShort 'z') =
        "prog" ++ ": option \x27-" ++ String.mk ['z'] ++ "\x27 requires an argument"
    ∧ (∀ e, (diagnose "prog" e).exitCode = 1) :=
  unknown_option_diagnostics exampleFlags ['z', 'z'] 'z' "prog" [['x']] []
    (by decide) (by decide) (by decide) (by decide)

/-- C6: For a value-expecting short option whose character is not last in
its token, the value is the rest of the token after the character, and the
rest of the token is never reprocessed as flags; and `-fp something` style
tokens fire the no-value flag then the value flag with the detached
value. -/
theorem short_attached_value_stops (flags : List Flag) (x a : Char) (v w : List Char)
    (i j : Nat) (f g : Flag) (ts : List (List Char))
    (hS : lookupShort flags x = some (i, f)) (hf : f.expects_value = true)
    (hx : x ≠ '-') (hv : v ≠ [])
    (hA : lookupShort flags a = some (j, g)) (hg : g.expects_value = false)
    (ha : a ≠ '-') :
    parseToks flags (('-' :: x :: v) :: ts) =
      (Event.invoke i v :: (parseToks flags ts).1, (parseToks flags ts).2)
    ∧ parseToks flags (['-', a, x] :: w :: ts) =
      (Event.invoke j [] :: Event.invoke i w :: (parseToks flags ts).1,
        (parseToks flags ts).2) := by
  constructor
  · have h1 : tokStep flags ('-' :: x :: v) ts.head? =
        .ok [Event.invoke i v] false := by
      rw [tokStep_short_multi flags x v ts.head? hx]
      exact shortStep_attached flags x v ts.head? i f hS hf hv
    simpa using parseToks_cons_ok_false flags _ ts _ h1
  · have hsc : shortChars flags (some w) [a, x] =
        { events := [Event.invoke j [], Event.invoke i w], error := none,
          consumedNext := true } := by
      simp [shortChars, hA, hg, hS, hf]
    have h2 : tokStep flags ['-', a, x] (some w) =
        .ok [Event.invoke j [], Event.invoke i w] true := by
      rw [tokStep_short_multi flags a [x] (some w) ha]
      simp [shortStep, hsc]
    simpa using parseToks_cons_ok_true flags _ w ts _ h2

/-- Witness for C6: `-pv` fires `-p` with the attached value `v`, and
`-fp something` fires `-f` then `-p` with the detached value. -/
theorem short_attached_value_stops_witness :
    parseToks exampleFlags (('-' :: 'p' :: ['v']) :: []) =
      (Event.invoke 2 ['v'] :: (parseToks exampleFlags []).1,
        (parseToks exampleFlags []).2)
    ∧ parseToks exampleFlags
        (['-', 'f', 'p'] :: ['s', 'o', 'm', 'e', 't', 'h', 'i', 'n', 'g'] :: []) =
      (Event.invoke 0 [] ::
        Event.invoke 2 ['s', 'o', 'm', 'e', 't', 'h', 'i', 'n', 'g'] ::
          (parseToks exampleFlags []).1,
        (parseToks exampleFlags []).2) :=
  short_attached_value_stops exampleFlags 'p' 'f' ['v']
    ['s', 'o', 'm', 'e', 't', 'h', 'i', 'n', 'g'] 2 0
    (Flag.withArgShort 'p' "Print something")
    (Flag.noArgShortLong 'f' "flag" "Set flag") []
    (by decide) (by decide) (by decide) (by decide) (by decide) (by decide)
    (by decide)

set_option maxRecDepth 10000 in
/-- C7: The help page is the line `Usage: <usage_text>` followed by one
line per spec in registration order, whose left column is the two-space
indent, the dashed names joined by a comma-space when both are present,
and ` ARG` for value-expecting specs; a left column of at most 32
characters is padded to width 32 and followed by one space and the
description, while a wider left column stands alone on its own line with
the description indented past the threshold on the next line. -/
theorem help_page_format (f g : Flag)
    (hfit : (lhsOf f).length ≤ lhsMax) (hover : lhsMax < (lhsOf g).length) :
    printHelpPage "example [args]" exampleFlags =
      "Usage: example [args]\n"
        ++ ("  -f, --flag" ++ spaces 20 ++ " " ++ "Set flag" ++ "\n")
        ++ ("  --filename ARG" ++ spaces 16 ++ " " ++ "Specify filename" ++ "\n")
        ++ ("  -p ARG" ++ spaces 24 ++ " " ++ "Print something" ++ "\n")
        ++ ("  -h, --help" ++ spaces 20 ++ " " ++ "Print help" ++ "\n")
    ∧ helpLine f =
        lhsOf f ++ spaces (lhsMax - (lhsOf f).length) ++ " " ++ f.description ++ "\n"
    ∧ (helpLine f).length = lhsMax + 1 + f.description.length + 1
    ∧ helpLine g = lhsOf g ++ "\n" ++ spaces lhsMax ++ " " ++ g.description ++ "\n" := by
  have hfl : helpLine f =
      lhsOf f ++ spaces (lhsMax - (lhsOf f).length) ++ " " ++ f.description ++ "\n" := by
    simp [helpLine, hfit]
  refine ⟨by decide, hfl, ?_, ?_⟩
  · have hfit2 : (lhsOf f).length ≤ 32 := hfit
    have e1 : (" " : String).length = 1 := rfl
    have e2 : ("\n" : String).length = 1 := rfl
    rw [hfl]
    simp [String.length_append, spaces_length, e1, e2, lhsMax]
    omega
  · simp only [helpLine]
    rw [if_neg (by omega)]

/-- Witness for C7: the first example flag fits in the threshold, the wide
flag does not. -/
theorem help_page_format_witness :
    printHelpPage "example [args]" exampleFlags =
      "Usage: example [args]\n"
        ++ ("  -f, --flag" ++ spaces 20 ++ " " ++ "Set flag" ++ "\n")
        ++ ("  --filename ARG" ++ spaces 16 ++ " " ++ "Specify filename" ++ "\n")
        ++ ("  -p ARG" ++ spaces 24 ++ " " ++ "Print something" ++ "\n")
        ++ ("  -h, --help" ++ spaces 20 ++ " " ++ "Print help" ++ "\n")
    ∧ helpLine (Flag.noArgShortLong 'f' "flag" "Set flag") =
        lhsOf (Flag.noArgShortLong 'f' "flag" "Set flag")
          ++ spaces (lhsMax - (lhsOf (Flag.noArgShortLong 'f' "flag" "Set flag")).length)
          ++ " " ++ (Flag.noArgShortLong 'f' "flag" "Set flag").description ++ "\n"
    ∧ (helpLine (Flag.noArgShortLong 'f' "flag" "Set flag")).length =
        lhsMax + 1 + (Flag.noArgShortLong 'f' "flag" "Set flag").description.length + 1
    ∧ helpLine wideFlag =
        lhsOf wideFlag ++ "\n" ++ spaces lhsMax ++ " " ++ wideFlag.description ++ "\n" :=
  help_page_format (Flag.noArgShortLong 'f' "flag" "Set flag") wideFlag
    (by decide) (by decide)

/-- C8: A token that is neither a long-option token (length at least 3
starting with two dashes) nor a short-option token (length at least 2
starting with a dash) is silently skipped: no error, no callback, not
collected, and parsing continues with the next token. -/
theorem non_option_tokens_skipped (flags : List Flag) (tok : List Char)
    (ts : List (List Char))
    (h1 : ¬(3 ≤ tok.length ∧ tok.take 2 = ['-', '-']))
    (h2 : ¬(2 ≤ tok.length ∧ tok.take 1 = ['-'])) :
    parseToks flags (tok :: ts) = parseToks flags ts := by
  have hts : tokStep flags tok ts.head? = .ok [] false := by
    simp [tokStep, h1, h2]
  simpa using parseToks_cons_ok_false flags tok ts [] hts

/-- Witness for C8: the bare word token `hi` is skipped before a real
flag token. -/
theorem non_option_tokens_skipped_witness :
    parseToks exampleFlags (['h', 'i'] :: [['-', 'f']]) =
      parseToks exampleFlags [['-', 'f']] :=
  non_option_tokens_skipped exampleFlags ['h', 'i'] [['-', 'f']]
    (by decide) (by decide)

/-- C9: A long token whose identifier before the first `=` is empty (such
as `--=v`) is resolved by comparing the empty string against stored long
names, so it matches the first registered flag constructed without a long
form (the short-only constructors store an empty long name) and fires its
callback with the suffix value instead of reporting an unknown option. -/
theorem empty_long_ident_matches_short_only (flags : List Flag) (i : Nat)
    (f : Flag) (v : List Char) (ts : List (List Char)) (c : Char) (desc : String)
    (hL : lookupLong flags [] = some (i, f)) (hf : f.expects_value = true)
    (hv : v ≠ []) :
    (Flag.withArgShort c desc).long_name = ""
    ∧ (Flag.noArgShort c desc).long_name = ""
    ∧ parseToks flags (('-' :: '-' :: '=' :: v) :: ts) =
        (Event.invoke i v :: (parseToks flags ts).1, (parseToks flags ts).2) := by
  refine ⟨rfl, rfl, ?_⟩
  have h1 : tokStep flags ('-' :: '-' :: '=' :: v) ts.head? =
      .ok [Event.invoke i v] false := by
    rw [tokStep_long flags ('=' :: v) ts.head? (by simp)]
    exact longStep_attached flags [] v ts.head? i f (by simp) hL hf hv
  simpa using parseToks_cons_ok_false flags _ ts _ h1

/-- Witness for C9: on the usage example registry the first flag without a
long form is `-p` (index 2), and `--=v` fires its callback with `v`. -/
theorem empty_long_ident_matches_short_only_witness :
    (Flag.withArgShort 'z' "zz").long_name = ""
    ∧ (Flag.noArgShort 'z' "zz").long_name = ""
    ∧ parseToks exampleFlags (('-' :: '-' :: '=' :: ['v']) :: []) =
        (Event.invoke 2 ['v'] :: (parseToks exampleFlags []).1,
          (parseToks exampleFlags []).2) :=
  empty_long_ident_matches_short_only exampleFlags 2
    (Flag.withArgShort 'p' "Print something") ['v'] [] 'z' "zz"
    (by decide) (by decide) (by decide)

/-- C10: The token `--` is not an end-of-options marker: its length is 2,
so it is classified as a short token whose single candidate character is
the dash, and with no flag registered under short name `-` it fails with
`unknown option: \x27--\x27` and exit status 1 before any later token is
processed. -/
theorem double_dash_unknown_short (flags : List Flag) (prog : String)
    (ts : List (List Char)) (more : List String)
    (h : lookupShort flags '-' = none) :
    parseToks flags (['-', '-'] :: ts) = ([], some (ParseError.unknownShort '-'))
    ∧ errorMessage prog (ParseError.unknownShort '-') =
        prog ++ ": unknown option: \x27--\x27"
    ∧ parse flags (prog :: "--" :: more) =
        ⟨[], some ⟨prog ++ ": unknown option: \x27--\x27", 1⟩⟩ := by
  have p1 : ∀ ts' : List (List Char), parseToks flags (['-', '-'] :: ts') =
      ([], some (ParseError.unknownShort '-')) := by
    intro ts'
    refine parseToks_cons_err flags _ ts' _ _ ?_
    rw [tokStep_short_single]
    exact shortStep_unknown flags '-' ts'.head? h
  have hmsg : errorMessage prog (ParseError.unknownShort '-') =
      prog ++ ": unknown option: \x27--\x27" := by
    show prog ++ ": unknown option: \x27-" ++ String.mk ['-'] ++ "\x27" = _
    rw [String.append_assoc, String.append_assoc]
    congr 1
  have hdata : ("--" : String).data = ['-', '-'] := rfl
  refine ⟨p1 ts, hmsg, ?_⟩
  simp [parse, diagnose, hdata, p1 (more.map String.data), hmsg]

/-- Witness for C10: the registry of the usage example has no flag with
short name `-`, so `-- -f` fails before `-f` is seen. -/
theorem double_dash_unknown_short_witness :
    parseToks exampleFlags (['-', '-'] :: [['-', 'f']]) =
      ([], some (ParseError.unknownShort '-'))
    ∧ errorMessage "prog" (ParseError.unknownShort '-') =
        "prog" ++ ": unknown option: \x27--\x27"
    ∧ parse exampleFlags ("prog" :: "--" :: ["-f"]) =
        ⟨[], some ⟨"prog" ++ ": unknown option: \x27--\x27", 1⟩⟩ :=
  double_dash_unknown_short exampleFlags "prog" [['-', 'f']] ["-f"] (by decide)

end Jargs
